import Mathlib

/-!
Verification of the rabbitmq_client core: connection lifecycle,
publisher reliability engine (confirm-mode tracking and retry) and the
RPC correlation layer.  The Python modules under `rmq_client/` are
shallowly embedded: mutable object state becomes explicit state records,
Python `dict`s become association lists with unique keys, and fallible
operations (an unguarded `dict.pop`) return `Except`.
-/

set_option autoImplicit false

namespace RmqClient

variable {κ : Type} {α : Type} [DecidableEq κ]

/-- Lookup in a Python-dict style association list: first entry wins
(`d.get(k)` / `d[k]`). -/
def dictGet : List (κ × α) → κ → Option α
  | [], _ => none
  | (k1, v1) :: rest, k => if k1 = k then some v1 else dictGet rest k

/-- `d.update({k: v})`: replace the value in place if the key exists,
otherwise append a new entry. -/
def dictUpdate : List (κ × α) → κ → α → List (κ × α)
  | [], k, v => [(k, v)]
  | (k1, v1) :: rest, k, v =>
    if k1 = k then (k, v) :: rest else (k1, v1) :: dictUpdate rest k v

/-- Removal of the entry for a key (the state change of `d.pop(k)`). -/
def dictErase : List (κ × α) → κ → List (κ × α)
  | [], _ => []
  | (k1, v1) :: rest, k => if k1 = k then rest else (k1, v1) :: dictErase rest k

/-- `d.pop(k)`: the popped value together with the remaining entries,
`none` when the key is absent (Python raises `KeyError` there). -/
def dictPop : List (κ × α) → κ → Option (α × List (κ × α))
  | [], _ => none
  | (k1, v1) :: rest, k =>
    if k1 = k then some (v1, rest)
    else (dictPop rest k).map (fun p => (p.1, (k1, v1) :: p.2))

theorem dictPop_eq_of_get {d : List (κ × α)} {k : κ} {v : α}
    (h : dictGet d k = some v) : dictPop d k = some (v, dictErase d k) := by
  induction d with
  | nil => simp [dictGet] at h
  | cons hd tl ih =>
    obtain ⟨k1, v1⟩ := hd
    by_cases hk : k1 = k
    · simp [dictGet, hk] at h
      simp [dictPop, dictErase, hk, h]
    · simp [dictGet, hk] at h
      simp [dictPop, dictErase, hk, ih h]

theorem dictPop_eq_none_of_get {d : List (κ × α)} {k : κ}
    (h : dictGet d k = none) : dictPop d k = none := by
  induction d with
  | nil => simp [dictPop]
  | cons hd tl ih =>
    obtain ⟨k1, v1⟩ := hd
    by_cases hk : k1 = k
    · simp [dictGet, hk] at h
    · simp [dictGet, hk] at h
      simp [dictPop, hk, ih h]

theorem dictGet_dictErase_ne {d : List (κ × α)} {k j : κ} (h : j ≠ k) :
    dictGet (dictErase d k) j = dictGet d j := by
  induction d with
  | nil => simp [dictErase]
  | cons hd tl ih =>
    obtain ⟨k1, v1⟩ := hd
    by_cases hk : k1 = k
    · subst hk
      have hj : ¬ k1 = j := fun hh => h hh.symm
      simp [dictErase, dictGet, hj]
    · by_cases hj : k1 = j
      · subst hj
        simp [dictErase, dictGet, hk]
      · simp [dictErase, dictGet, hk, hj, ih]

theorem dictGet_eq_none_of_not_mem {d : List (κ × α)} {k : κ}
    (h : k ∉ d.map Prod.fst) : dictGet d k = none := by
  induction d with
  | nil => simp [dictGet]
  | cons hd tl ih =>
    obtain ⟨k1, v1⟩ := hd
    simp only [List.map_cons, List.mem_cons] at h
    push_neg at h
    have hne : ¬ k1 = k := fun hh => h.1 hh.symm
    simp [dictGet, hne, ih h.2]

theorem dictGet_dictErase_self {d : List (κ × α)} {k : κ}
    (h : (d.map Prod.fst).Nodup) : dictGet (dictErase d k) k = none := by
  induction d with
  | nil => simp [dictErase, dictGet]
  | cons hd tl ih =>
    obtain ⟨k1, v1⟩ := hd
    simp only [List.map_cons, List.nodup_cons] at h
    by_cases hk : k1 = k
    · subst hk
      simpa [dictErase] using dictGet_eq_none_of_not_mem h.1
    · simp [dictErase, dictGet, hk, ih h.2]

theorem dictUpdate_fresh {d : List (κ × α)} {k : κ} (v : α)
    (h : dictGet d k = none) : dictUpdate d k v = d ++ [(k, v)] := by
  induction d with
  | nil => simp [dictUpdate]
  | cons hd tl ih =>
    obtain ⟨k1, v1⟩ := hd
    by_cases hk : k1 = k
    · simp [dictGet, hk] at h
    · simp [dictGet, hk] at h
      simp [dictUpdate, hk, ih h]

theorem dictErase_append_fresh {d : List (κ × α)} {k : κ} (v : α)
    (h : dictGet d k = none) : dictErase (d ++ [(k, v)]) k = d := by
  induction d with
  | nil => simp [dictErase]
  | cons hd tl ih =>
    obtain ⟨k1, v1⟩ := hd
    by_cases hk : k1 = k
    · simp [dictGet, hk] at h
    · simp [dictGet, hk] at h
      simp [dictErase, hk, ih h]

theorem dictPop_append_fresh {d : List (κ × α)} {k : κ} (v : α)
    (h : dictGet d k = none) : dictPop (d ++ [(k, v)]) k = some (v, d) := by
  induction d with
  | nil => simp [dictPop]
  | cons hd tl ih =>
    obtain ⟨k1, v1⟩ := hd
    by_cases hk : k1 = k
    · simp [dictGet, hk] at h
    · simp [dictGet, hk] at h
      simp [dictPop, hk, ih h]

/-- Python truthiness of an optional string (`None` and `""` are falsy),
as used by `if publish.reply_to or publish.correlation_id` and by the
`enable_rpc_server` guard. -/
def truthy : Option String → Bool
  | none => false
  | some s => s ≠ ""

/-- Modelled from the spec: the `Publish` work item lives in the
repository's `defs` module, which is not under `src/`.  Spec section 3:
"payload bytes, exchange name, exchange type, routing key, optional
reply-to queue name, optional correlation id, attempt counter,
maximum-attempts constant". -/
structure Publish where
  message_content : String
  exchange : String
  routing_key : String
  reply_to : Option String
  correlation_id : Option String
  attempts : Nat
  MAX_ATTEMPTS : Nat
deriving DecidableEq, Repr

/-- Modelled from the spec: `Publish.attempt` is defined in the missing
`defs` module.  Spec section 4.4: "record `{tag: publish.attempt()}` in
the PendingConfirm map, where `attempt()` increments and returns the
mutated Publish". -/
def Publish.attempt (p : Publish) : Publish :=
  { p with attempts := p.attempts + 1 }

/-- The subset of `pika.BasicProperties` that `publish` constructs
(producer_connection.py lines 262-265). -/
structure BasicProperties where
  reply_to : Option String
  correlation_id : Option String
deriving DecidableEq, Repr

/-- One `channel.basic_publish` call as issued by `publish`
(producer_connection.py lines 267-272). -/
structure PublishedFrame where
  exchange : String
  routing_key : String
  body : String
  properties : Option BasicProperties
deriving DecidableEq, Repr

/-- State of an `RMQProducerConnection` relevant to the reliability
engine, together with the observable channel commands it has issued.
`work_queue` records the items put back on the process-shared work
queue, `declared` the `exchange_declare` calls, `published` the
`basic_publish` calls, and `critical_logs` counts log items posted at
`logging.CRITICAL`. -/
structure ProducerState where
  expected_delivery_tag : Nat
  pending_confirm : List (Nat × Publish)
  work_queue : List Publish
  declared : List String
  published : List PublishedFrame
  critical_logs : Nat
deriving DecidableEq, Repr

/-- `__init__` (producer_connection.py lines 67-68): the counter starts
at 0 and the pending-confirm dict is empty. -/
def initialProducerState : ProducerState :=
  { expected_delivery_tag := 0
    pending_confirm := []
    work_queue := []
    declared := []
    published := []
    critical_logs := 0 }

/-- The `properties` expression of `publish` (producer_connection.py
lines 262-265): a `BasicProperties` only when reply-to or correlation id
is truthy, else `None`. -/
def publishProperties (p : Publish) : Option BasicProperties :=
  if truthy p.reply_to || truthy p.correlation_id then
    some { reply_to := p.reply_to, correlation_id := p.correlation_id }
  else none

/-- `RMQProducerConnection.publish` (producer_connection.py lines
247-278): increment `_expected_delivery_tag`, record
`{tag: publish.attempt()}` in `_pending_confirm`, and issue
`basic_publish` with the computed properties. -/
def RMQProducerConnection.publish (s : ProducerState) (p : Publish) : ProducerState :=
  let tag := s.expected_delivery_tag + 1
  { s with
    expected_delivery_tag := tag
    pending_confirm := dictUpdate s.pending_confirm tag p.attempt
    published := s.published ++
      [{ exchange := p.exchange
         routing_key := p.routing_key
         body := p.message_content
         properties := publishProperties p }] }

/-- Outcome of one `handle_publish` call: terminally dropped, published
on the RPC fast path, or an `exchange_declare` issued with the publish
deferred to the `on_exchange_declared` callback. -/
inductive HandleOutcome where
  | dropped
  | published_now
  | declare_issued (exchange : String) (pending_callback : Publish)
deriving DecidableEq, Repr

/-- `RMQProducerConnection.handle_publish` (producer_connection.py lines
179-206).  Total: it returns normally in every case (no exception
escapes to the caller). -/
def handle_publish (s : ProducerState) (p : Publish) : ProducerState × HandleOutcome :=
  if p.attempts > p.MAX_ATTEMPTS then
    ({ s with critical_logs := s.critical_logs + 1 }, .dropped)
  else if truthy p.reply_to || truthy p.correlation_id then
    (RMQProducerConnection.publish s p, .published_now)
  else
    ({ s with declared := s.declared ++ [p.exchange] },
      .declare_issued p.exchange p)

/-- `RMQProducerConnection.on_exchange_declared` (producer_connection.py
lines 232-245): the deferred publish runs only now. -/
def on_exchange_declared (s : ProducerState) (p : Publish) : ProducerState :=
  RMQProducerConnection.publish s p

/-- The method of a delivery-confirmation frame: `Basic.Ack` or
`Basic.Nack`, each carrying a delivery tag. -/
inductive ConfirmMethod where
  | ack (delivery_tag : Nat)
  | nack (delivery_tag : Nat)
deriving DecidableEq, Repr

def ConfirmMethod.delivery_tag : ConfirmMethod → Nat
  | .ack t => t
  | .nack t => t

/-- `RMQProducerConnection.on_delivery_confirmed` (producer_connection.py
lines 208-230): `_pending_confirm.pop(frame.method.delivery_tag)` is
unguarded, so an unknown tag raises `KeyError`; on `Basic.Nack` the
popped publish is put back on the work queue. -/
def on_delivery_confirmed (s : ProducerState) (m : ConfirmMethod) :
    Except String ProducerState :=
  match dictPop s.pending_confirm m.delivery_tag with
  | none => .error "KeyError"
  | some (publish, rest) =>
    match m with
    | .nack _ =>
      .ok { s with pending_confirm := rest, work_queue := s.work_queue ++ [publish] }
    | .ack _ =>
      .ok { s with pending_confirm := rest }

/-- `RPC_DEFAULT_REPLY` (rpc.py line 14): the sentinel byte sequence
`b'NONE'`, modelled as a string. -/
def RPC_DEFAULT_REPLY : String := "NONE"

/-- `RPCResponse` (rpc.py lines 17-24): a response slot with a blocking
`Event` (modelled by the flag `blocker_set`) and a payload initialised
to the sentinel. -/
structure RPCResponse where
  blocker_set : Bool
  response : String
deriving DecidableEq, Repr

/-- `RPCResponse.__init__` (rpc.py lines 22-24): unset event, sentinel
payload. -/
def RPCResponse.init : RPCResponse :=
  { blocker_set := false, response := RPC_DEFAULT_REPLY }

/-- Modelled from the spec: `ConsumedMessage` lives in the repository's
`consumer_defs` module, which is not under `src/`.  Spec section 3:
"an inbound delivery surfaced to the application: payload, optional
reply-to, optional correlation id". -/
structure ConsumedMessage where
  message : String
  reply_to : Option String
  correlation_id : Option String
deriving DecidableEq, Repr

/-- `RMQRPCHandler.handle_rpc_response` (rpc.py lines 199-211):
`self._pending_requests.pop(message.correlation_id)` is unguarded, so a
correlation id with no pending entry raises `KeyError`.  When the entry
exists, the popped slot gets the payload stored and its blocker set
(returned as the updated slot, mirroring mutation of the shared
object). -/
def handle_rpc_response (pending : List (Option String × RPCResponse))
    (message : ConsumedMessage) :
    Except String (List (Option String × RPCResponse) × RPCResponse) :=
  match dictPop pending message.correlation_id with
  | none => .error "KeyError"
  | some (response, rest) =>
    .ok (rest, { response with response := message.message, blocker_set := true })

/-- `RMQRPCHandler.rpc_call` (rpc.py lines 139-171), closed under an
explicit arrival model for the concurrent response delivery:
`arrival = some payload` means the event loop runs
`handle_rpc_response` with that payload for this call's correlation id
before the fixed 2.0-second timeout expires, so `blocker.wait` returns
early; `arrival = none` means no response ever arrives and the wait
times out.  Result: the final pending-request map, the returned bytes,
and whether the full timeout elapsed. -/
def rpc_call (pending : List (Option String × RPCResponse)) (corr_id : String)
    (arrival : Option String) :
    List (Option String × RPCResponse) × String × Bool :=
  let response := RPCResponse.init
  let pending1 := dictUpdate pending (some corr_id) response
  match arrival with
  | some payload =>
    match handle_rpc_response pending1
        { message := payload, reply_to := none, correlation_id := some corr_id } with
    | .ok (pending2, updated) =>
      -- blocker.wait returns before the timeout; the entry was popped by
      -- handle_rpc_response, so the get-guard fails and the (shared,
      -- mutated) slot contents are returned.
      (pending2, updated.response, false)
    | .error _ =>
      -- unreachable: the correlation id was registered just above
      (pending1, response.response, false)
  | none =>
    -- blocker.wait times out; the entry is still pending, so it is
    -- popped and the untouched sentinel is returned.
    (dictErase pending1 (some corr_id), response.response, true)

/-- State of the `RMQRPCHandler` RPC-server side: the registered request
queue name, the registered request callback (callbacks tracked as opaque
ids), the `consumer.rpc_server` subscriptions started, and the count of
warning-level log calls. -/
structure RPCServerState where
  request_queue_name : Option String
  rpc_request_callback : Option Nat
  subscriptions : List String
  warnings : Nat
deriving DecidableEq, Repr

/-- Class-attribute defaults of `RMQRPCHandler` (rpc.py line 38):
`_request_queue_name = None`, no callback, nothing subscribed. -/
def RPCServerState.initial : RPCServerState :=
  { request_queue_name := none
    rpc_request_callback := none
    subscriptions := []
    warnings := 0 }

/-- `RMQRPCHandler.enable_rpc_server` (rpc.py lines 69-92): guarded by
the Python truthiness of `self._request_queue_name`; when the guard
fires it logs a warning and returns, otherwise it registers the queue
name and callback and starts `consumer.rpc_server`. -/
def enable_rpc_server (s : RPCServerState) (rpc_queue_name : String)
    (rpc_request_callback : Nat) : RPCServerState :=
  if truthy s.request_queue_name then
    { s with warnings := s.warnings + 1 }
  else
    { s with
      request_queue_name := some rpc_queue_name
      rpc_request_callback := some rpc_request_callback
      subscriptions := s.subscriptions ++ [rpc_queue_name] }

/-- State of an `RMQConnection` (connection.py): the `_closing` flag,
whether `self._connection.close()` has been requested, and how many
times `ioloop.stop()` has run (via `finalize_disconnect`). -/
structure ConnState where
  closing : Bool
  close_requested : Bool
  loop_stopped : Nat
deriving DecidableEq, Repr

/-- `RMQConnection.__init__` (connection.py line 39). -/
def ConnState.initial : ConnState :=
  { closing := false, close_requested := false, loop_stopped := 0 }

/-- `RMQConnection.disconnect` (connection.py lines 71-85): if not
already closing, set the flag and request transport close; otherwise
log and return.  It never touches the IO loop. -/
def disconnect (s : ConnState) : ConnState :=
  if !s.closing then
    { s with closing := true, close_requested := true }
  else s

/-- `RMQConnection.finalize_disconnect` (connection.py lines 87-91):
stop the IO loop. -/
def finalize_disconnect (s : ConnState) : ConnState :=
  { s with loop_stopped := s.loop_stopped + 1 }

/-- `RMQProducerConnection.interrupt` (producer_connection.py lines
280-291): sets `self._closing = True` and then calls
`self.disconnect()`. -/
def RMQProducerConnection.interrupt (s : ConnState) : ConnState :=
  disconnect { s with closing := true }

/-- `RMQProducerConnection.terminate` (producer_connection.py lines
293-304): identical body to `interrupt`. -/
def RMQProducerConnection.terminate (s : ConnState) : ConnState :=
  disconnect { s with closing := true }

/-- `RMQConsumerConnection.interrupt` (consumer_connection.py lines
150-160): logs and calls `self.disconnect()`. -/
def RMQConsumerConnection.interrupt (s : ConnState) : ConnState :=
  disconnect s

/-- `RMQConsumerConnection.terminate` (consumer_connection.py lines
162-172): logs and calls `self.disconnect()`. -/
def RMQConsumerConnection.terminate (s : ConnState) : ConnState :=
  disconnect s

/-- `RMQConsumerConnection.on_connection_closed` (consumer_connection.py
lines 89-107): whether closing was local or not, both branches call
`finalize_disconnect`. -/
def on_connection_closed (s : ConnState) : ConnState :=
  if s.closing then finalize_disconnect s else finalize_disconnect s

/-- The two lifecycle events a connection processes: a `disconnect()`
call and the transport's connection-closed notification. -/
inductive ConnEvent where
  | disc
  | closed
deriving DecidableEq, Repr

/-- One lifecycle step. -/
def connStep (s : ConnState) : ConnEvent → ConnState
  | .disc => disconnect s
  | .closed => on_connection_closed s

/-- A whole lifecycle run from the freshly initialised connection. -/
def runConn (events : List ConnEvent) : ConnState :=
  events.foldl connStep ConnState.initial

/-- A sequence of `publish` calls from the freshly initialised producer
state (no confirmations interleaved). -/
def runPublishes (ps : List Publish) : ProducerState :=
  ps.foldl RMQProducerConnection.publish initialProducerState

/-! Concrete sample data used by witness theorems. -/

/-- A sample publish with neither reply-to nor correlation id. -/
def pubA : Publish :=
  { message_content := "m"
    exchange := "e"
    routing_key := "r"
    reply_to := none
    correlation_id := none
    attempts := 1
    MAX_ATTEMPTS := 3 }

/-- A sample publish carrying a reply-to (RPC traffic). -/
def pubB : Publish :=
  { message_content := "m2"
    exchange := "e2"
    routing_key := "r2"
    reply_to := some "q"
    correlation_id := none
    attempts := 2
    MAX_ATTEMPTS := 3 }

/-- A producer state with two in-flight publishes under tags 1 and 3. -/
def sampleProducerState : ProducerState :=
  { initialProducerState with
    expected_delivery_tag := 3
    pending_confirm := [(1, pubA), (3, pubB)] }

/-- C1: a confirmation frame whose delivery tag has a pending entry pops
exactly that entry; a `Basic.Nack` re-submits the popped publish to the
work queue exactly once, an ack re-submits nothing. -/
theorem C1_on_delivery_confirmed_resolves (s : ProducerState) (tag : Nat) (p : Publish)
    (hnodup : (s.pending_confirm.map Prod.fst).Nodup)
    (hget : dictGet s.pending_confirm tag = some p) :
    on_delivery_confirmed s (ConfirmMethod.nack tag) =
      Except.ok { s with
        pending_confirm := dictErase s.pending_confirm tag
        work_queue := s.work_queue ++ [p] }
    ∧ on_delivery_confirmed s (ConfirmMethod.ack tag) =
      Except.ok { s with pending_confirm := dictErase s.pending_confirm tag }
    ∧ dictGet (dictErase s.pending_confirm tag) tag = none
    ∧ ∀ k, k ≠ tag →
        dictGet (dictErase s.pending_confirm tag) k = dictGet s.pending_confirm k := by
  refine ⟨?_, ?_, dictGet_dictErase_self hnodup, fun k hk => dictGet_dictErase_ne hk⟩
  · simp [on_delivery_confirmed, ConfirmMethod.delivery_tag, dictPop_eq_of_get hget]
  · simp [on_delivery_confirmed, ConfirmMethod.delivery_tag, dictPop_eq_of_get hget]

/-- Witness for C1 at the sample state, tag 1. -/
theorem C1_on_delivery_confirmed_resolves_witness :
    ((sampleProducerState.pending_confirm.map Prod.fst).Nodup
      ∧ dictGet sampleProducerState.pending_confirm 1 = some pubA)
    ∧ (on_delivery_confirmed sampleProducerState (ConfirmMethod.nack 1) =
        Except.ok { sampleProducerState with
          pending_confirm := dictErase sampleProducerState.pending_confirm 1
          work_queue := sampleProducerState.work_queue ++ [pubA] }
      ∧ on_delivery_confirmed sampleProducerState (ConfirmMethod.ack 1) =
        Except.ok { sampleProducerState with
          pending_confirm := dictErase sampleProducerState.pending_confirm 1 }
      ∧ dictGet (dictErase sampleProducerState.pending_confirm 1) 1 = none
      ∧ ∀ k, k ≠ 1 →
          dictGet (dictErase sampleProducerState.pending_confirm 1) k
            = dictGet sampleProducerState.pending_confirm k) :=
  ⟨⟨by decide, by decide⟩,
    C1_on_delivery_confirmed_resolves sampleProducerState 1 pubA (by decide) (by decide)⟩

/-- C2: a publish whose attempt counter exceeds `MAX_ATTEMPTS` is dropped
terminally: one critical log, no publish, no declare, no re-enqueue, and
`handle_publish` returns normally; a publish with attempts equal to
`MAX_ATTEMPTS` is still attempted (not dropped). -/
theorem C2_handle_publish_max_attempts (s : ProducerState) (p q : Publish)
    (hp : p.attempts > p.MAX_ATTEMPTS) (hq : q.attempts = q.MAX_ATTEMPTS) :
    handle_publish s p =
      ({ s with critical_logs := s.critical_logs + 1 }, HandleOutcome.dropped)
    ∧ (handle_publish s q).2 ≠ HandleOutcome.dropped := by
  constructor
  · simp [handle_publish, hp]
  · have hq2 : ¬ q.attempts > q.MAX_ATTEMPTS := by omega
    by_cases h : (truthy q.reply_to || truthy q.correlation_id) = true <;>
      simp [handle_publish, hq2, h]

/-- Witness for C2: `pubA.attempt.attempt.attempt` has 4 attempts against
`MAX_ATTEMPTS = 3`; `pubB.attempt` has exactly 3. -/
theorem C2_handle_publish_max_attempts_witness :
    (pubA.attempt.attempt.attempt.attempts > pubA.attempt.attempt.attempt.MAX_ATTEMPTS
      ∧ pubB.attempt.attempts = pubB.attempt.MAX_ATTEMPTS)
    ∧ (handle_publish initialProducerState pubA.attempt.attempt.attempt =
        ({ initialProducerState with
            critical_logs := initialProducerState.critical_logs + 1 },
          HandleOutcome.dropped)
      ∧ (handle_publish initialProducerState pubB.attempt).2 ≠ HandleOutcome.dropped) :=
  ⟨⟨by decide, by decide⟩,
    C2_handle_publish_max_attempts initialProducerState
      pubA.attempt.attempt.attempt pubB.attempt (by decide) (by decide)⟩

/-- C7: an accepted publish carrying a truthy reply-to or correlation id
is published immediately with no exchange declaration; otherwise only an
`exchange_declare` is issued (nothing published yet) and the publish is
performed by the `on_exchange_declared` callback. -/
theorem C7_declare_before_publish (s : ProducerState) (p : Publish)
    (hok : p.attempts ≤ p.MAX_ATTEMPTS) :
    ((truthy p.reply_to || truthy p.correlation_id) = true →
      handle_publish s p = (RMQProducerConnection.publish s p, HandleOutcome.published_now)
      ∧ (RMQProducerConnection.publish s p).declared = s.declared)
    ∧ ((truthy p.reply_to || truthy p.correlation_id) = false →
      handle_publish s p =
        ({ s with declared := s.declared ++ [p.exchange] },
          HandleOutcome.declare_issued p.exchange p)
      ∧ (handle_publish s p).1.published = s.published
      ∧ on_exchange_declared (handle_publish s p).1 p =
          RMQProducerConnection.publish (handle_publish s p).1 p) := by
  have hnot : ¬ p.attempts > p.MAX_ATTEMPTS := by omega
  constructor
  · intro h
    exact ⟨by simp [handle_publish, hnot, h], by simp [RMQProducerConnection.publish]⟩
  · intro h
    refine ⟨by simp [handle_publish, hnot, h], by simp [handle_publish, hnot, h], rfl⟩

/-- Witness for C7: `pubB` takes the RPC fast path, `pubA` the
declare-first path. -/
theorem C7_declare_before_publish_witness :
    (pubB.attempts ≤ pubB.MAX_ATTEMPTS
      ∧ (truthy pubB.reply_to || truthy pubB.correlation_id) = true)
    ∧ (pubA.attempts ≤ pubA.MAX_ATTEMPTS
      ∧ (truthy pubA.reply_to || truthy pubA.correlation_id) = false)
    ∧ handle_publish initialProducerState pubB =
        (RMQProducerConnection.publish initialProducerState pubB,
          HandleOutcome.published_now)
    ∧ handle_publish initialProducerState pubA =
        ({ initialProducerState with
            declared := initialProducerState.declared ++ [pubA.exchange] },
          HandleOutcome.declare_issued pubA.exchange pubA) :=
  ⟨⟨by decide, by decide⟩, ⟨by decide, by decide⟩,
    ((C7_declare_before_publish initialProducerState pubB (by decide)).1
      (by decide)).1,
    ((C7_declare_before_publish initialProducerState pubA (by decide)).2
      (by decide)).1⟩

/-- C10: a confirmation frame for a tag with no pending entry hits the
unguarded `dict.pop` and raises `KeyError` (for ack and nack alike),
while an ack for a pending tag N with smaller tags still outstanding
succeeds, removing only the entry for N. -/
theorem C10_unknown_tag_raises (s : ProducerState) (tag n : Nat) (p : Publish)
    (hmiss : dictGet s.pending_confirm tag = none)
    (hn : dictGet s.pending_confirm n = some p) :
    on_delivery_confirmed s (ConfirmMethod.ack tag) = Except.error "KeyError"
    ∧ on_delivery_confirmed s (ConfirmMethod.nack tag) = Except.error "KeyError"
    ∧ (on_delivery_confirmed s (ConfirmMethod.ack n)).isOk = true
    ∧ ∀ k, k ≠ n →
        dictGet (dictErase s.pending_confirm n) k = dictGet s.pending_confirm k := by
  refine ⟨?_, ?_, ?_, fun k hk => dictGet_dictErase_ne hk⟩
  · simp [on_delivery_confirmed, ConfirmMethod.delivery_tag,
      dictPop_eq_none_of_get hmiss]
  · simp [on_delivery_confirmed, ConfirmMethod.delivery_tag,
      dictPop_eq_none_of_get hmiss]
  · simp [on_delivery_confirmed, ConfirmMethod.delivery_tag,
      dictPop_eq_of_get hn, Except.isOk, Except.toBool]

/-- Witness for C10: tag 2 is unknown in the sample state (a gap between
pending tags 1 and 3); tag 3 is acked while tag 1 is still pending. -/
theorem C10_unknown_tag_raises_witness :
    (dictGet sampleProducerState.pending_confirm 2 = none
      ∧ dictGet sampleProducerState.pending_confirm 3 = some pubB)
    ∧ (on_delivery_confirmed sampleProducerState (ConfirmMethod.ack 2)
        = Except.error "KeyError"
      ∧ on_delivery_confirmed sampleProducerState (ConfirmMethod.nack 2)
        = Except.error "KeyError"
      ∧ (on_delivery_confirmed sampleProducerState (ConfirmMethod.ack 3)).isOk = true
      ∧ ∀ k, k ≠ 3 →
          dictGet (dictErase sampleProducerState.pending_confirm 3) k
            = dictGet sampleProducerState.pending_confirm k) :=
  ⟨⟨by decide, by decide⟩,
    C10_unknown_tag_raises sampleProducerState 2 3 pubB (by decide) (by decide)⟩

/-- The frame `publish` hands to `basic_publish` for a given publish. -/
def frameOf (p : Publish) : PublishedFrame :=
  { exchange := p.exchange
    routing_key := p.routing_key
    body := p.message_content
    properties := publishProperties p }

theorem publish_foldl (ps : List Publish) : ∀ (s : ProducerState),
    (∀ k ∈ s.pending_confirm.map Prod.fst, k ≤ s.expected_delivery_tag) →
    (ps.foldl RMQProducerConnection.publish s).expected_delivery_tag
        = s.expected_delivery_tag + ps.length
    ∧ (ps.foldl RMQProducerConnection.publish s).pending_confirm
        = s.pending_confirm ++
          (List.range' (s.expected_delivery_tag + 1) ps.length).zip
            (ps.map Publish.attempt)
    ∧ (ps.foldl RMQProducerConnection.publish s).published
        = s.published ++ ps.map frameOf := by
  induction ps with
  | nil => intro s _; simp
  | cons p rest ih =>
    intro s hbound
    have hfresh : dictGet s.pending_confirm (s.expected_delivery_tag + 1) = none := by
      apply dictGet_eq_none_of_not_mem
      intro hmem
      have := hbound _ hmem
      omega
    have hpub : RMQProducerConnection.publish s p =
        { s with
          expected_delivery_tag := s.expected_delivery_tag + 1
          pending_confirm :=
            s.pending_confirm ++ [(s.expected_delivery_tag + 1, p.attempt)]
          published := s.published ++ [frameOf p] } := by
      simp [RMQProducerConnection.publish, frameOf, dictUpdate_fresh _ hfresh]
    have hbound2 : ∀ k ∈ (RMQProducerConnection.publish s p).pending_confirm.map Prod.fst,
        k ≤ (RMQProducerConnection.publish s p).expected_delivery_tag := by
      rw [hpub]
      intro k hk
      simp only [List.map_append, List.mem_append, List.map_cons, List.map_nil,
        List.mem_cons, List.not_mem_nil, or_false] at hk
      rcases hk with hk | hk
      · have := hbound _ hk
        simp only
        omega
      · simp only
        omega
    have hrest := ih (RMQProducerConnection.publish s p) hbound2
    rw [List.foldl_cons]
    refine ⟨?_, ?_, ?_⟩
    · rw [hrest.1, hpub]
      simp [Nat.add_assoc, Nat.add_comm 1 rest.length]
    · rw [hrest.2.1, hpub]
      simp only [List.map_cons, List.length_cons, List.range'_succ, List.zip_cons_cons,
        List.append_assoc, List.cons_append, List.nil_append]
    · rw [hrest.2.2, hpub]
      simp

/-- C3: from the initial producer state, `n` publishes assign the tags
`1, …, n` in order — unique, strictly increasing, starting at 1, one per
publish — recording `publish.attempt()` under each new tag, and every
`basic_publish` carries a `BasicProperties` exactly when reply-to or
correlation id is (truthily) present. -/
theorem C3_delivery_tags (ps : List Publish) :
    (runPublishes ps).expected_delivery_tag = ps.length
    ∧ (runPublishes ps).pending_confirm
        = (List.range' 1 ps.length).zip (ps.map Publish.attempt)
    ∧ (runPublishes ps).pending_confirm.map Prod.fst = List.range' 1 ps.length
    ∧ ((runPublishes ps).pending_confirm.map Prod.fst).Pairwise (· < ·)
    ∧ (runPublishes ps).published = ps.map frameOf
    ∧ ∀ p : Publish,
        (publishProperties p).isSome = (truthy p.reply_to || truthy p.correlation_id) := by
  have h := publish_foldl ps initialProducerState (by simp [initialProducerState])
  have hkeys : (runPublishes ps).pending_confirm.map Prod.fst = List.range' 1 ps.length := by
    rw [show (runPublishes ps).pending_confirm = _ from h.2.1]
    apply List.map_fst_zip
    simp
  refine ⟨by simpa [initialProducerState] using h.1,
    by simpa [initialProducerState] using h.2.1,
    hkeys, ?_, by simpa [initialProducerState] using h.2.2, ?_⟩
  · rw [hkeys]
    exact List.pairwise_lt_range' 1 ps.length
  · intro p
    by_cases hp : (truthy p.reply_to || truthy p.correlation_id) = true <;>
      simp [publishProperties, hp]

theorem connStep_loop_count (events : List ConnEvent) : ∀ s : ConnState,
    (events.foldl connStep s).loop_stopped
      = s.loop_stopped + events.count ConnEvent.closed := by
  induction events with
  | nil => intro s; simp
  | cons e rest ih =>
    intro s
    rw [List.foldl_cons, ih]
    cases e
    · have hd : (connStep s ConnEvent.disc).loop_stopped = s.loop_stopped := by
        simp only [connStep, disconnect]
        split <;> rfl
      rw [hd]
      simp [List.count_cons]
    · have hc : (connStep s ConnEvent.closed).loop_stopped = s.loop_stopped + 1 := by
        simp only [connStep, on_connection_closed, finalize_disconnect]
        split <;> rfl
      rw [hc]
      simp [List.count_cons]
      omega

/-- C9: over any sequence of `disconnect()` calls and connection-closed
notifications, the IO loop is stopped exactly once per closed
notification — so exactly once in a lifecycle (one closed notification)
and never synchronously from `disconnect()` (a run of only disconnects
stops it zero times). -/
theorem C9_loop_stopped_once (events : List ConnEvent) :
    (runConn events).loop_stopped = events.count ConnEvent.closed
    ∧ ∀ n : Nat,
        (runConn (List.replicate n ConnEvent.disc)).loop_stopped = 0 := by
  constructor
  · rw [runConn, connStep_loop_count]
    simp [ConnState.initial]
  · intro n
    rw [runConn, connStep_loop_count]
    simp [ConnState.initial, List.count_replicate]

/-- C4: with a fresh correlation id, `rpc_call` with no arriving response
waits out the full timeout, removes the pending entry it registered and
returns the sentinel `NONE`; with a response arriving before the
timeout it returns exactly the received payload without waiting out the
timeout, and leaves no pending entry for the correlation id. -/
theorem C4_rpc_call_timeout_and_response
    (pending : List (Option String × RPCResponse)) (corr_id payload : String)
    (hfresh : dictGet pending (some corr_id) = none) :
    rpc_call pending corr_id none = (pending, RPC_DEFAULT_REPLY, true)
    ∧ rpc_call pending corr_id (some payload) = (pending, payload, false)
    ∧ dictGet (rpc_call pending corr_id none).1 (some corr_id) = none
    ∧ dictGet (rpc_call pending corr_id (some payload)).1 (some corr_id) = none := by
  have hupd := dictUpdate_fresh (κ := Option String) RPCResponse.init hfresh
  have htimeout : rpc_call pending corr_id none = (pending, RPC_DEFAULT_REPLY, true) := by
    simp only [rpc_call, hupd]
    rw [dictErase_append_fresh _ hfresh]
    rfl
  have hresp : rpc_call pending corr_id (some payload) = (pending, payload, false) := by
    simp only [rpc_call, handle_rpc_response, hupd]
    rw [dictPop_append_fresh _ hfresh]
  refine ⟨htimeout, hresp, ?_, ?_⟩
  · rw [htimeout]; exact hfresh
  · rw [hresp]; exact hfresh

/-- Witness for C4 with an empty pending map and correlation id `c`. -/
theorem C4_rpc_call_timeout_and_response_witness :
    dictGet ([] : List (Option String × RPCResponse)) (some "c") = none
    ∧ (rpc_call [] "c" none = ([], RPC_DEFAULT_REPLY, true)
      ∧ rpc_call [] "c" (some "pong") = ([], "pong", false)
      ∧ dictGet (rpc_call [] "c" none).1 (some "c") = none
      ∧ dictGet (rpc_call [] "c" (some "pong")).1 (some "c") = none) :=
  ⟨rfl, C4_rpc_call_timeout_and_response [] "c" "pong" rfl⟩

/-- C5: the code contradicts the claim — a response whose correlation id
has no pending entry hits the unguarded `dict.pop` and raises
`KeyError` instead of being logged and discarded; with a pending entry
the handler does pop it, store the payload and release the waiter. -/
theorem C5_unknown_correlation_id_raises :
    handle_rpc_response []
      { message := "m", reply_to := none, correlation_id := some "c1" }
      = Except.error "KeyError"
    ∧ handle_rpc_response [(some "c2", RPCResponse.init)]
        { message := "pong", reply_to := none, correlation_id := some "c2" }
      = Except.ok ([], { blocker_set := true, response := "pong" }) := by
  exact ⟨rfl, rfl⟩

/-- C6: the code contradicts the claim for the producer variant — its
signal handlers set `_closing` before calling `disconnect()`, so
`disconnect()` takes the already-closing branch and never requests the
transport close; the consumer variant does request it. -/
theorem C6_producer_signal_skips_close :
    RMQProducerConnection.interrupt ConnState.initial
      = { closing := true, close_requested := false, loop_stopped := 0 }
    ∧ RMQProducerConnection.terminate ConnState.initial
      = { closing := true, close_requested := false, loop_stopped := 0 }
    ∧ RMQConsumerConnection.interrupt ConnState.initial
      = { closing := true, close_requested := true, loop_stopped := 0 }
    ∧ RMQConsumerConnection.terminate ConnState.initial
      = { closing := true, close_requested := true, loop_stopped := 0 } := by
  exact ⟨rfl, rfl, rfl, rfl⟩

/-- Counterexample to C8 as stated: a first registration with the empty
string (a queue name) does not arm the truthiness guard, so a second
call re-registers and starts a second consumer subscription. -/
theorem C8_empty_queue_name_counterexample :
    (enable_rpc_server (enable_rpc_server RPCServerState.initial "" 1) "svc2" 2).request_queue_name
      = some "svc2"
    ∧ (enable_rpc_server (enable_rpc_server RPCServerState.initial "" 1) "svc2" 2).subscriptions
      = ["", "svc2"]
    ∧ some "svc2" ≠ (some "" : Option String) := by
  refine ⟨rfl, rfl, by decide⟩

/-- C8 (amended): once `enable_rpc_server` has registered a non-empty
queue name, any second call only logs a warning — the registered queue
name and callback stay those of the first call and no new consumer
subscription is started. -/
theorem C8_second_enable_rpc_server_noop (s : RPCServerState) (q : String) (cb : Nat)
    (hnone : s.request_queue_name = none) (hq : q ≠ "") :
    (enable_rpc_server s q cb).request_queue_name = some q
    ∧ (enable_rpc_server s q cb).rpc_request_callback = some cb
    ∧ (enable_rpc_server s q cb).subscriptions = s.subscriptions ++ [q]
    ∧ ∀ q2 cb2,
        enable_rpc_server (enable_rpc_server s q cb) q2 cb2
          = { enable_rpc_server s q cb with
              warnings := (enable_rpc_server s q cb).warnings + 1 } := by
  have h1 : enable_rpc_server s q cb =
      { s with
        request_queue_name := some q
        rpc_request_callback := some cb
        subscriptions := s.subscriptions ++ [q] } := by
    simp [enable_rpc_server, hnone, truthy]
  refine ⟨by rw [h1], by rw [h1], by rw [h1], fun q2 cb2 => ?_⟩
  rw [h1]
  simp [enable_rpc_server, truthy, hq]

/-- Witness for the amended C8: register `svc`, then attempt `svc2`. -/
theorem C8_second_enable_rpc_server_noop_witness :
    (RPCServerState.initial.request_queue_name = none ∧ "svc" ≠ "")
    ∧ ((enable_rpc_server RPCServerState.initial "svc" 1).request_queue_name = some "svc"
      ∧ (enable_rpc_server RPCServerState.initial "svc" 1).rpc_request_callback = some 1
      ∧ (enable_rpc_server RPCServerState.initial "svc" 1).subscriptions
          = RPCServerState.initial.subscriptions ++ ["svc"]
      ∧ ∀ q2 cb2,
          enable_rpc_server (enable_rpc_server RPCServerState.initial "svc" 1) q2 cb2
            = { enable_rpc_server RPCServerState.initial "svc" 1 with
                warnings := (enable_rpc_server RPCServerState.initial "svc" 1).warnings + 1 }) :=
  ⟨⟨rfl, by decide⟩,
    C8_second_enable_rpc_server_noop RPCServerState.initial "svc" 1 rfl (by decide)⟩

end RmqClient
